import Mathlib

/-!
Shallow embedding of `src/inference.py` (single-run batch inference pipeline:
S3 download -> mlflow predict -> S3 upload).

Side effects are made explicit: each transfer function returns the list of
observable events it performed (prints, client construction, API calls,
filesystem writes) together with its result.  A result of type
`Except PyErr Bool` distinguishes the function returning a boolean (`.ok b`)
from an exception escaping the function (`.error e`), mirroring Python.
The behaviour of the external boto3 client is an input (`S3CallResult` /
`Except PyErr Nat`), since the source only branches on the exceptions those
calls raise.
-/

/-- Python exception values relevant to the source: `botocore` `ClientError`
(carrying an error code and a rendered message), `NoCredentialsError`, and a
generic `Exception` with a message. -/
inductive PyErr
  | clientError (code : String) (msg : String)
  | noCredentialsError
  | exc (msg : String)
  deriving DecidableEq, Repr

/-- Outcome of a boto3 data-call (`upload_file` / `download_file`):
either it returns, or it raises one of the modelled exceptions. -/
inductive S3CallResult
  | success
  | clientError (code : String) (msg : String)
  | noCredentials
  | otherError (msg : String)
  deriving DecidableEq, Repr

/-- Observable side effects of the transfer functions, in program order. -/
inductive Event
  | print (msg : String)
  | createClient
  | uploadApiCall (bucket : Option String) (key : String) (path : String)
  | headApiCall (bucket : Option String) (key : Option String)
  | downloadApiCall (bucket : Option String) (key : Option String) (path : String)
  | mkdirParents (path : String)
  | writeFile (path : String) (content : String)
  deriving DecidableEq, Repr

/-- Is this event the metadata probe (`head_object`)? -/
def isHeadCall : Event → Bool
  | .headApiCall _ _ => true
  | _ => false

/-- Local filesystem: association list from path to file content
(first match wins, later writes shadow earlier ones). -/
def FS := List (String × String)
deriving DecidableEq, Repr

/-- `os.path.isfile` on the modelled filesystem. -/
def fileExists (fs : FS) (p : String) : Bool :=
  (List.lookup p fs).isSome

/-- `os.path.getsize` on the modelled filesystem (0 when absent). -/
def fileSize (fs : FS) (p : String) : Nat :=
  match List.lookup p fs with
  | some c => c.length
  | none => 0

/-- Writing a file: the new content shadows any previous one. -/
def fsWrite (fs : FS) (p content : String) : FS :=
  (p, content) :: fs

/-- How Python renders an optional string in an f-string: `None` when absent. -/
def pyStr : Option String → String
  | some s => s
  | none => "None"

/-- `pathlib.Path(p).name`: the final path component. -/
def basename (p : String) : String :=
  ((p.splitOn "/").getLast?).getD p

/-- `os.path.dirname`-style parent of a path, as `Path(p).parent.mkdir` targets. -/
def parentDir (p : String) : String :=
  let parts := p.splitOn "/"
  String.intercalate "/" (parts.dropLast)

/-- The diagnostic prints of the `NoCredentialsError` handler, shared
verbatim between `upload_file_to_s3` and `download_file_from_s3`
(lines 85-93 and 187-195 of `src/inference.py`). -/
def credentialErrorPrints : List Event :=
  [ Event.print "Error: AWS credentials not found. Please configure your credentials.",
    Event.print "You can set them via:",
    Event.print "  - Environment variables (AWS_ACCESS_KEY_ID, AWS_SECRET_ACCESS_KEY)",
    Event.print "  - AWS credentials file (~/.aws/credentials)",
    Event.print "  - IAM roles (if running on EC2)" ]

/-- Body of the `try` block of `upload_file_to_s3` (lines 46-83): create the
client, print the size line, call `upload_file`; on success print the
confirmation and the constructed object URL. An exception raised by the
upload call is returned as `.error` together with the events that already
happened. -/
def uploadTryBody (fs : FS) (call : S3CallResult) (file_path : String)
    (bucket_name : Option String) (object_key : String)
    (endpoint_url : Option String) (region : String) :
    List Event × Except PyErr Bool :=
  let file_size := fileSize fs file_path
  let evts := [Event.createClient,
               Event.print ("Uploading " ++ file_path ++ " (" ++ toString file_size
                 ++ " bytes) to bucket " ++ pyStr bucket_name ++ " as " ++ object_key ++ "..."),
               Event.uploadApiCall bucket_name object_key file_path]
  match call with
  | .success =>
      let file_url :=
        match endpoint_url with
        | none => "https://" ++ pyStr bucket_name ++ ".s3." ++ region
            ++ ".amazonaws.com/" ++ object_key
        | some ep => ep ++ "/" ++ pyStr bucket_name ++ "/" ++ object_key
      (evts ++ [Event.print ("Successfully uploaded " ++ object_key ++ " to bucket "
                  ++ pyStr bucket_name),
                Event.print ("File URL: " ++ file_url)], .ok true)
  | .clientError code msg => (evts, .error (.clientError code msg))
  | .noCredentials => (evts, .error .noCredentialsError)
  | .otherError msg => (evts, .error (.exc msg))

/-- The `except` handlers of `upload_file_to_s3` (lines 85-110): every
modelled exception is converted to prints plus `False`. -/
def uploadHandlers (bucket_name : Option String) : PyErr → List Event × Bool
  | .noCredentialsError => (credentialErrorPrints, false)
  | .clientError code msg =>
      if code = "NoSuchBucket" then
        ([Event.print ("Error: Bucket " ++ pyStr bucket_name ++ " does not exist.")], false)
      else if code = "AccessDenied" then
        ([Event.print ("Error: Access denied. Check your permissions for bucket "
            ++ pyStr bucket_name ++ ".")], false)
      else
        ([Event.print ("Error uploading file: " ++ msg)], false)
  | .exc msg => ([Event.print ("Unexpected error: " ++ msg)], false)

/-- `upload_file_to_s3` (lines 10-110): validate that the local file exists
(returning `False` with no client and no API call otherwise), default the
object key to the file's base name, then run the try body under the
handlers. `call` is the behaviour of the underlying `upload_file` API call. -/
def upload_file_to_s3 (fs : FS) (call : S3CallResult) (file_path : String)
    (bucket_name : Option String) (object_key : Option String)
    (endpoint_url : Option String) (region : String) :
    List Event × Except PyErr Bool :=
  if ¬ fileExists fs file_path then
    ([Event.print ("Error: File " ++ file_path ++ " not found.")], .ok false)
  else
    let key := object_key.getD (basename file_path)
    let body := uploadTryBody fs call file_path bucket_name key endpoint_url region
    match body.2 with
    | .ok b => (body.1, .ok b)
    | .error e =>
        let handled := uploadHandlers bucket_name e
        (body.1 ++ handled.1, .ok handled.2)

/-- Body of the outer `try` block of `download_file_from_s3` (lines 144-185),
including the inner `try/except ClientError` around `head_object`
(lines 155-170).  `headOutcome` is the behaviour of `head_object` (`.ok size`
or a raised exception); `dlCall` that of `download_file`.  A `ClientError`
with code `404` from the probe is handled inline (`return False`); any other
`ClientError` from the probe is re-raised as the generic wrapped
`Exception("Error checking object existence")`; exceptions that are not
`ClientError` pass through the inner handler untouched. -/
def downloadTryBody (headOutcome : Except PyErr Nat) (dlCall : S3CallResult)
    (bucket_name : Option String) (object_key : Option String)
    (file_path : String) : List Event × Except PyErr Bool :=
  let evts := [Event.createClient, Event.headApiCall bucket_name object_key]
  match headOutcome with
  | .error (.clientError code _msg) =>
      if code = "404" then
        (evts ++ [Event.print ("Error: Object " ++ pyStr object_key
           ++ " not found in bucket " ++ pyStr bucket_name ++ ".")], .ok false)
      else
        (evts, .error (.exc "Error checking object existence"))
  | .error e => (evts, .error e)
  | .ok file_size =>
      let evts2 := evts ++
        [Event.print ("Downloading " ++ pyStr object_key ++ " (" ++ toString file_size
           ++ " bytes) from bucket " ++ pyStr bucket_name ++ " to " ++ file_path ++ "..."),
         Event.mkdirParents (parentDir file_path),
         Event.downloadApiCall bucket_name object_key file_path]
      match dlCall with
      | .success =>
          (evts2 ++ [Event.print ("Successfully downloaded " ++ pyStr object_key
              ++ " to " ++ file_path),
            Event.print ("Local file size: " ++ toString file_size ++ " bytes")], .ok true)
      | .clientError code msg => (evts2, .error (.clientError code msg))
      | .noCredentials => (evts2, .error .noCredentialsError)
      | .otherError msg => (evts2, .error (.exc msg))

/-- The outer `except` handlers of `download_file_from_s3` (lines 187-212):
every modelled exception — including the wrapped probe error re-raised by the
inner handler — is converted to prints plus `False`. -/
def downloadHandlers (bucket_name : Option String) (object_key : Option String) :
    PyErr → List Event × Bool
  | .noCredentialsError => (credentialErrorPrints, false)
  | .clientError code msg =>
      if code = "NoSuchBucket" then
        ([Event.print ("Error: Bucket " ++ pyStr bucket_name ++ " does not exist.")], false)
      else if code = "AccessDenied" then
        ([Event.print ("Error: Access denied. Check your permissions for bucket "
            ++ pyStr bucket_name ++ " and object " ++ pyStr object_key ++ ".")], false)
      else
        ([Event.print ("Error downloading file: " ++ msg)], false)
  | .exc msg => ([Event.print ("Unexpected error: " ++ msg)], false)

/-- `download_file_from_s3` (lines 113-212): default the local path to the
object key's base name, then run the try body under the outer handlers. -/
def download_file_from_s3 (headOutcome : Except PyErr Nat) (dlCall : S3CallResult)
    (bucket_name : Option String) (object_key : Option String)
    (file_path : Option String) : List Event × Except PyErr Bool :=
  let path := file_path.getD (basename (pyStr object_key))
  let body := downloadTryBody headOutcome dlCall bucket_name object_key path
  match body.2 with
  | .ok b => (body.1, .ok b)
  | .error e =>
      let handled := downloadHandlers bucket_name object_key e
      (body.1 ++ handled.1, .ok handled.2)

/-- The in-memory table read from the staged CSV.  Only the identifier column
(`PassengerId`) and row count matter to the driver; the feature columns are
opaque to it and are abstracted away. -/
structure DataFrame where
  passengerIds : List Int
  deriving DecidableEq, Repr

/-- An mlflow PyFunc model handle: its `predict` either returns one value per
row or raises (modelled as `.error msg`). -/
structure Model where
  run : DataFrame → Except String (List Int)

/-- `predict` (lines 215-222): resolve the model reference via
`mlflow.pyfunc.load_model` (`loadResult` is that call's behaviour: a handle,
or a raised resolution error) and invoke its `predict` on the input frame.
Any error — resolution failure included — propagates to the caller. -/
def predict (loadResult : Except String Model) (input_data : DataFrame) :
    Except String (List Int) :=
  match loadResult with
  | .error e => .error e
  | .ok loaded_model => loaded_model.run input_data

/-- The `preds_df` assembly of `__main__` (lines 279-284):
`pd.DataFrame({"PassengerId": df["PassengerId"], "predictions": predictions})`
pairs the identifier column with the prediction list positionally; pandas
raises `ValueError` when the lengths differ. -/
def assemblePreds (df : DataFrame) (predictions : List Int) :
    Except String (List (Int × Int)) :=
  if df.passengerIds.length = predictions.length then
    .ok (df.passengerIds.zip predictions)
  else
    .error "ValueError: array lengths differ"

/-- `df.to_csv("/tmp/predictions.csv", index=False)`: header line then one
`id,prediction` line per row, in order. -/
def serializePreds (rows : List (Int × Int)) : String :=
  "PassengerId,predictions\n"
    ++ String.join (rows.map fun r => toString r.1 ++ "," ++ toString r.2 ++ "\n")

/-- The environment variables `persist_predictions` reads via `os.getenv`. -/
structure OsEnv where
  S3_BUCKET_NAME : Option String
  S3_ENDPOINT_URL : Option String
  AWS_DEFAULT_REGION : Option String
  deriving DecidableEq, Repr

/-- `persist_predictions` (lines 225-236): serialize the frame to
`/tmp/predictions.csv`, then upload that file as object key
`data/predictions.csv` to the configured bucket, returning the upload's
outcome. Returns the filesystem after the write, the events in order (the
write first, then the upload's events), and the upload's result. -/
def persist_predictions (env : OsEnv) (fs : FS) (uploadCall : S3CallResult)
    (df : List (Int × Int)) : FS × (List Event × Except PyErr Bool) :=
  let content := serializePreds df
  let fs2 := fsWrite fs "/tmp/predictions.csv" content
  let uploaded := upload_file_to_s3 fs2 uploadCall "/tmp/predictions.csv"
      env.S3_BUCKET_NAME (some "data/predictions.csv") env.S3_ENDPOINT_URL
      (env.AWS_DEFAULT_REGION.getD "us-east-1")
  (fs2, (Event.writeFile "/tmp/predictions.csv" content :: uploaded.1, uploaded.2))

/-- The pipeline steps of `__main__` (lines 239-288), in program order. -/
inductive Step
  | downloadStep (result : Bool)
  | readCsv
  | printHead
  | printDownloadFailed
  | setTrackingUri (uri : Option String)
  | printTrackingUri
  | printMakingPredictions
  | predictInvoked
  | assembleStep
  | printPredictions
  | persistStep
  deriving DecidableEq, Repr

/-- How a run of `__main__` ends: either the script falls off the end
(carrying the discarded result of `persist_predictions`), or an uncaught
exception with the given message terminates the process. -/
inductive RunOutcome
  | completed (uploadOk : Except PyErr Bool)
  | fatal (msg : String)
  deriving Repr

/-- Inputs of a run of `__main__`: the result of the initial
`download_file_from_s3` call, the frame `pd.read_csv("/tmp/test.csv")` yields
when the download succeeded, the behaviour of `mlflow.pyfunc.load_model`, the
behaviour of the upload API call made by `persist_predictions`, the local
filesystem, and the environment variables. -/
structure DriverEnv where
  dlResult : Bool
  stagedDf : DataFrame
  loadResult : Except String Model
  uploadCall : S3CallResult
  fs : FS
  MLFLOW_TRACKING_URI : Option String
  osEnv : OsEnv

/-- `__main__` (lines 239-288).  After the download call the driver proceeds
unconditionally: on failure it prints a message but still configures the
tracking URI and enters the prediction `try` block, where evaluating the
never-assigned `df` raises `NameError`; the `except` handler wraps whatever
was raised as `Exception("Error during prediction: ...")` and re-raises it,
uncaught.  `predict` itself is only invoked when the download succeeded.  A
length mismatch in the `preds_df` assembly raises outside any handler.
Returns the executed steps in order and the run's outcome. -/
def mainRun (env : DriverEnv) : List Step × RunOutcome :=
  let pre := [Step.downloadStep env.dlResult]
    ++ (if env.dlResult then [Step.readCsv, Step.printHead]
        else [Step.printDownloadFailed])
    ++ [Step.setTrackingUri env.MLFLOW_TRACKING_URI, Step.printTrackingUri,
        Step.printMakingPredictions]
  if env.dlResult then
    match predict env.loadResult env.stagedDf with
    | .error e =>
        (pre ++ [Step.predictInvoked],
         RunOutcome.fatal ("Error during prediction: " ++ e))
    | .ok predictions =>
        match assemblePreds env.stagedDf predictions with
        | .error m => (pre ++ [Step.predictInvoked], RunOutcome.fatal m)
        | .ok rows =>
            let persisted := persist_predictions env.osEnv env.fs env.uploadCall rows
            (pre ++ [Step.predictInvoked, Step.assembleStep, Step.printPredictions,
                     Step.persistStep],
             RunOutcome.completed persisted.2.2)
  else
    (pre, RunOutcome.fatal
      ("Error during prediction: NameError: name df is not defined"))

/-- A concrete driver environment whose download step fails (used to
exercise `mainRun` on the download-failure path). -/
def envDlFailed : DriverEnv :=
  ⟨false, ⟨[]⟩, Except.error "load failed", S3CallResult.success, [], none,
   ⟨none, none, none⟩⟩

/-- A concrete driver environment whose download succeeds but whose model
reference fails to resolve (used to exercise the fatal prediction path). -/
def envLoadFailed : DriverEnv :=
  ⟨true, ⟨[1, 2, 3]⟩, Except.error "RESOURCE_DOES_NOT_EXIST",
   S3CallResult.success, [], none, ⟨none, none, none⟩⟩

/- ------------------------------------------------------------------ -/
/- General sanity theorems about the transfer boundary.               -/
/- ------------------------------------------------------------------ -/

/-- `upload_file_to_s3` never lets an exception escape: every path returns a
boolean. -/
theorem upload_never_raises (fs : FS) (call : S3CallResult) (file_path : String)
    (bucket_name : Option String) (object_key endpoint_url : Option String)
    (region : String) :
    ∃ b, (upload_file_to_s3 fs call file_path bucket_name object_key
            endpoint_url region).2 = .ok b := by
  unfold upload_file_to_s3
  by_cases h : fileExists fs file_path
  · simp only [h, not_true_eq_false, if_false]
    rcases call with _ | ⟨code, msg⟩ | _ | msg <;>
      simp [uploadTryBody, uploadHandlers]
  · simp [h]

/-- `download_file_from_s3` never lets an exception escape: every raised
exception, the wrapped probe error included, is caught by the function's own
outer handlers. -/
theorem download_never_raises (headOutcome : Except PyErr Nat)
    (dlCall : S3CallResult) (bucket_name object_key file_path : Option String) :
    ∃ b, (download_file_from_s3 headOutcome dlCall bucket_name object_key
            file_path).2 = .ok b := by
  unfold download_file_from_s3
  rcases headOutcome with e | n
  · rcases e with ⟨code, msg⟩ | _ | msg
    · by_cases h : code = "404" <;>
        simp [downloadTryBody, downloadHandlers, h]
    · simp [downloadTryBody, downloadHandlers]
    · simp [downloadTryBody, downloadHandlers]
  · rcases dlCall with _ | ⟨code, msg⟩ | _ | msg <;>
      simp [downloadTryBody, downloadHandlers]

/- ------------------------------------------------------------------ -/
/- Claim theorems.                                                    -/
/- ------------------------------------------------------------------ -/

/-- C1: for an input record set of `n` rows and predictions of length `n`,
the assembled output table (`preds_df`) has exactly `n` rows, its identifier
column is the input's identifier list unchanged and in original positional
order, and row `i` pairs input identifier `i` with prediction `i`. -/
theorem spec_C1_row_alignment (ids preds : List Int) (n : Nat)
    (h1 : ids.length = n) (h2 : preds.length = n) :
    assemblePreds ⟨ids⟩ preds = .ok (ids.zip preds) ∧
    (ids.zip preds).length = n ∧
    (ids.zip preds).map Prod.fst = ids ∧
    ∀ i a b, ids.get? i = some a → preds.get? i = some b →
      (ids.zip preds).get? i = some (a, b) := by
  refine ⟨?_, ?_, ?_, ?_⟩
  · simp [assemblePreds, h1, h2]
  · rw [List.length_zip, h1, h2, min_self]
  · exact List.map_fst_zip ids preds (by rw [h1, h2])
  · intro i a b ha hb
    rw [List.get?_zip_eq_some]
    exact ⟨ha, hb⟩

/-- Witness for C1 at the spec's end-to-end scenario: identifiers `1,2,3`
and stub predictions `0,1,0`. -/
theorem spec_C1_row_alignment_witness :
    assemblePreds ⟨[1, 2, 3]⟩ [0, 1, 0] = .ok ([(1 : Int), 2, 3].zip [0, 1, 0]) ∧
    ([(1 : Int), 2, 3].zip [(0 : Int), 1, 0]).length = 3 ∧
    ([(1 : Int), 2, 3].zip [(0 : Int), 1, 0]).map Prod.fst = [1, 2, 3] ∧
    (∀ i a b, [(1 : Int), 2, 3].get? i = some a →
      [(0 : Int), 1, 0].get? i = some b →
      ([(1 : Int), 2, 3].zip [(0 : Int), 1, 0]).get? i = some (a, b)) :=
  spec_C1_row_alignment [1, 2, 3] [0, 1, 0] 3 rfl rfl

/-- C4: an upload whose local path names no existing file returns failure
having performed only the diagnostic print: no client construction and no
upload API call. -/
theorem spec_C4_upload_missing_file (fs : FS) (call : S3CallResult)
    (file_path : String) (bucket_name object_key endpoint_url : Option String)
    (region : String) (h : fileExists fs file_path = false) :
    (upload_file_to_s3 fs call file_path bucket_name object_key
        endpoint_url region).2 = .ok false ∧
    (upload_file_to_s3 fs call file_path bucket_name object_key
        endpoint_url region).1
      = [Event.print ("Error: File " ++ file_path ++ " not found.")] ∧
    Event.createClient ∉ (upload_file_to_s3 fs call file_path bucket_name
        object_key endpoint_url region).1 ∧
    ∀ b k p, Event.uploadApiCall b k p ∉ (upload_file_to_s3 fs call file_path
        bucket_name object_key endpoint_url region).1 := by
  have hr : upload_file_to_s3 fs call file_path bucket_name object_key
      endpoint_url region
      = ([Event.print ("Error: File " ++ file_path ++ " not found.")], .ok false) := by
    simp [upload_file_to_s3, h]
  rw [hr]
  refine ⟨rfl, rfl, ?_, ?_⟩
  · simp
  · intro b k p
    simp

/-- Witness for C4 on the empty filesystem. -/
theorem spec_C4_upload_missing_file_witness :
    (upload_file_to_s3 [] .success "/tmp/missing.csv" (some "bkt") none
        none "us-east-1").2 = .ok false ∧
    (upload_file_to_s3 [] .success "/tmp/missing.csv" (some "bkt") none
        none "us-east-1").1
      = [Event.print ("Error: File " ++ "/tmp/missing.csv" ++ " not found.")] ∧
    Event.createClient ∉ (upload_file_to_s3 [] .success "/tmp/missing.csv"
        (some "bkt") none none "us-east-1").1 ∧
    ∀ b k p, Event.uploadApiCall b k p ∉ (upload_file_to_s3 [] .success
        "/tmp/missing.csv" (some "bkt") none none "us-east-1").1 :=
  spec_C4_upload_missing_file [] .success "/tmp/missing.csv" (some "bkt")
    none none "us-east-1" rfl

/-- C5: a successful upload with the object key omitted uses the local
file's base name as the remote key, and reports the object URL
`https://{bucket}.s3.{region}.amazonaws.com/{key}` when no endpoint is
supplied and `{endpoint}/{bucket}/{key}` when one is. -/
theorem spec_C5_default_key_and_url (fs : FS) (file_path bucket : String)
    (endpoint_url : Option String) (region : String)
    (h : fileExists fs file_path = true) :
    (upload_file_to_s3 fs .success file_path (some bucket) none
        endpoint_url region).2 = .ok true ∧
    Event.uploadApiCall (some bucket) (basename file_path) file_path
      ∈ (upload_file_to_s3 fs .success file_path (some bucket) none
          endpoint_url region).1 ∧
    Event.print ("File URL: " ++
        match endpoint_url with
        | none => "https://" ++ bucket ++ ".s3." ++ region
            ++ ".amazonaws.com/" ++ basename file_path
        | some ep => ep ++ "/" ++ bucket ++ "/" ++ basename file_path)
      ∈ (upload_file_to_s3 fs .success file_path (some bucket) none
          endpoint_url region).1 := by
  cases endpoint_url with
  | none => simp [upload_file_to_s3, h, uploadTryBody, pyStr]
  | some ep => simp [upload_file_to_s3, h, uploadTryBody, pyStr]

/-- Witness for C5: a one-file filesystem, default endpoint. -/
theorem spec_C5_default_key_and_url_witness :
    (upload_file_to_s3 [("/tmp/out/report.csv", "hello")] .success
        "/tmp/out/report.csv" (some "mybucket") none none "us-east-1").2
      = .ok true ∧
    Event.uploadApiCall (some "mybucket") (basename "/tmp/out/report.csv")
        "/tmp/out/report.csv"
      ∈ (upload_file_to_s3 [("/tmp/out/report.csv", "hello")] .success
          "/tmp/out/report.csv" (some "mybucket") none none "us-east-1").1 ∧
    Event.print ("File URL: " ++ ("https://" ++ "mybucket" ++ ".s3."
        ++ "us-east-1" ++ ".amazonaws.com/" ++ basename "/tmp/out/report.csv"))
      ∈ (upload_file_to_s3 [("/tmp/out/report.csv", "hello")] .success
          "/tmp/out/report.csv" (some "mybucket") none none "us-east-1").1 :=
  spec_C5_default_key_and_url [("/tmp/out/report.csv", "hello")]
    "/tmp/out/report.csv" "mybucket" none "us-east-1" rfl

/-- C6: a download whose metadata probe reports not-found (`ClientError`
code `404`) returns failure; its event trace is exactly client construction,
one probe, and the diagnostic print — so exactly one metadata probe, zero
data-transfer calls, and no local write (no mkdir, no file written). -/
theorem spec_C6_absent_object (dlCall : S3CallResult) (msg : String)
    (bucket_name object_key file_path : Option String) :
    (download_file_from_s3 (.error (.clientError "404" msg)) dlCall
        bucket_name object_key file_path).2 = .ok false ∧
    (download_file_from_s3 (.error (.clientError "404" msg)) dlCall
        bucket_name object_key file_path).1
      = [Event.createClient, Event.headApiCall bucket_name object_key,
         Event.print ("Error: Object " ++ pyStr object_key
           ++ " not found in bucket " ++ pyStr bucket_name ++ ".")] ∧
    ((download_file_from_s3 (.error (.clientError "404" msg)) dlCall
        bucket_name object_key file_path).1.countP fun e => isHeadCall e) = 1 ∧
    (∀ b k p, Event.downloadApiCall b k p ∉
      (download_file_from_s3 (.error (.clientError "404" msg)) dlCall
        bucket_name object_key file_path).1) ∧
    (∀ p, Event.mkdirParents p ∉
      (download_file_from_s3 (.error (.clientError "404" msg)) dlCall
        bucket_name object_key file_path).1) ∧
    (∀ p c, Event.writeFile p c ∉
      (download_file_from_s3 (.error (.clientError "404" msg)) dlCall
        bucket_name object_key file_path).1) := by
  have hr : download_file_from_s3 (.error (.clientError "404" msg)) dlCall
      bucket_name object_key file_path
      = ([Event.createClient, Event.headApiCall bucket_name object_key,
          Event.print ("Error: Object " ++ pyStr object_key
            ++ " not found in bucket " ++ pyStr bucket_name ++ ".")], .ok false) := by
    simp [download_file_from_s3, downloadTryBody]
  rw [hr]
  refine ⟨rfl, rfl, ?_, ?_, ?_, ?_⟩
  · simp [List.countP_cons, isHeadCall]
  · intro b k p; simp
  · intro p; simp
  · intro p c; simp

/-- C7: when the underlying client signals missing credentials, both Upload
(at its `upload_file` call) and Download (at its metadata probe) return
failure rather than raising, and both print the diagnostic lines naming the
three credential-supply mechanisms: environment variables, the credentials
file, and instance (IAM) roles. -/
theorem spec_C7_missing_credentials (fs : FS) (file_path : String)
    (bucket_name object_key endpoint_url dl_file_path : Option String)
    (region : String) (h : fileExists fs file_path = true) :
    (upload_file_to_s3 fs .noCredentials file_path bucket_name object_key
        endpoint_url region).2 = .ok false ∧
    Event.print "  - Environment variables (AWS_ACCESS_KEY_ID, AWS_SECRET_ACCESS_KEY)"
      ∈ (upload_file_to_s3 fs .noCredentials file_path bucket_name object_key
          endpoint_url region).1 ∧
    Event.print "  - AWS credentials file (~/.aws/credentials)"
      ∈ (upload_file_to_s3 fs .noCredentials file_path bucket_name object_key
          endpoint_url region).1 ∧
    Event.print "  - IAM roles (if running on EC2)"
      ∈ (upload_file_to_s3 fs .noCredentials file_path bucket_name object_key
          endpoint_url region).1 ∧
    (download_file_from_s3 (.error .noCredentialsError) .success bucket_name
        object_key dl_file_path).2 = .ok false ∧
    Event.print "  - Environment variables (AWS_ACCESS_KEY_ID, AWS_SECRET_ACCESS_KEY)"
      ∈ (download_file_from_s3 (.error .noCredentialsError) .success bucket_name
          object_key dl_file_path).1 ∧
    Event.print "  - AWS credentials file (~/.aws/credentials)"
      ∈ (download_file_from_s3 (.error .noCredentialsError) .success bucket_name
          object_key dl_file_path).1 ∧
    Event.print "  - IAM roles (if running on EC2)"
      ∈ (download_file_from_s3 (.error .noCredentialsError) .success bucket_name
          object_key dl_file_path).1 := by
  refine ⟨?_, ?_, ?_, ?_, ?_, ?_, ?_, ?_⟩ <;>
    simp [upload_file_to_s3, h, uploadTryBody, uploadHandlers,
      download_file_from_s3, downloadTryBody, downloadHandlers,
      credentialErrorPrints]

/-- Witness for C7: a one-file filesystem, concrete bucket and key. -/
theorem spec_C7_missing_credentials_witness :
    (upload_file_to_s3 [("/tmp/test.csv", "d")] .noCredentials "/tmp/test.csv"
        (some "bkt") none none "us-east-1").2 = .ok false ∧
    Event.print "  - Environment variables (AWS_ACCESS_KEY_ID, AWS_SECRET_ACCESS_KEY)"
      ∈ (upload_file_to_s3 [("/tmp/test.csv", "d")] .noCredentials "/tmp/test.csv"
          (some "bkt") none none "us-east-1").1 ∧
    Event.print "  - AWS credentials file (~/.aws/credentials)"
      ∈ (upload_file_to_s3 [("/tmp/test.csv", "d")] .noCredentials "/tmp/test.csv"
          (some "bkt") none none "us-east-1").1 ∧
    Event.print "  - IAM roles (if running on EC2)"
      ∈ (upload_file_to_s3 [("/tmp/test.csv", "d")] .noCredentials "/tmp/test.csv"
          (some "bkt") none none "us-east-1").1 ∧
    (download_file_from_s3 (.error .noCredentialsError) .success (some "bkt")
        none (some "/tmp/test.csv")).2 = .ok false ∧
    Event.print "  - Environment variables (AWS_ACCESS_KEY_ID, AWS_SECRET_ACCESS_KEY)"
      ∈ (download_file_from_s3 (.error .noCredentialsError) .success (some "bkt")
          none (some "/tmp/test.csv")).1 ∧
    Event.print "  - AWS credentials file (~/.aws/credentials)"
      ∈ (download_file_from_s3 (.error .noCredentialsError) .success (some "bkt")
          none (some "/tmp/test.csv")).1 ∧
    Event.print "  - IAM roles (if running on EC2)"
      ∈ (download_file_from_s3 (.error .noCredentialsError) .success (some "bkt")
          none (some "/tmp/test.csv")).1 :=
  spec_C7_missing_credentials [("/tmp/test.csv", "d")] "/tmp/test.csv"
    (some "bkt") none none (some "/tmp/test.csv") "us-east-1" rfl

/-- C3 counterexample: with a probe error of code `500`, the Download call
returns the plain failure indicator `False` (the wrapped probe error is NOT
left uncaught): the claim that such a call does not return a plain failure
indicator fails at this input. -/
theorem spec_C3_counterexample :
    (download_file_from_s3 (.error (.clientError "500" "server error")) .success
        (some "bkt") (some "data/test.csv") (some "/tmp/test.csv")).2
      = .ok false ∧
    Event.print "Unexpected error: Error checking object existence"
      ∈ (download_file_from_s3 (.error (.clientError "500" "server error")) .success
          (some "bkt") (some "data/test.csv") (some "/tmp/test.csv")).1 := by
  refine ⟨?_, ?_⟩ <;>
    simp [download_file_from_s3, downloadTryBody, downloadHandlers]

/-- C3 amended: a probe failure whose code is not `404` is re-raised one
level up as the generic wrapped `Exception("Error checking object
existence")` (visible in the try-block body), but that wrapped error is then
caught by the function's own outer generic handler, so the Download call
prints it as an unexpected error and returns the plain failure indicator
rather than propagating an exception to its caller. -/
theorem spec_C3_probe_error_swallowed (dlCall : S3CallResult) (code msg : String)
    (bucket_name object_key file_path : Option String) (h : code ≠ "404") :
    (downloadTryBody (.error (.clientError code msg)) dlCall bucket_name
        object_key (file_path.getD (basename (pyStr object_key)))).2
      = .error (.exc "Error checking object existence") ∧
    (download_file_from_s3 (.error (.clientError code msg)) dlCall
        bucket_name object_key file_path).2 = .ok false ∧
    Event.print "Unexpected error: Error checking object existence"
      ∈ (download_file_from_s3 (.error (.clientError code msg)) dlCall
          bucket_name object_key file_path).1 := by
  refine ⟨?_, ?_, ?_⟩ <;>
    simp [download_file_from_s3, downloadTryBody, downloadHandlers, h]

/-- Witness for the amended C3 at probe error code `403`. -/
theorem spec_C3_probe_error_swallowed_witness :
    (downloadTryBody (.error (.clientError "403" "forbidden")) .success
        (some "bkt") (some "data/test.csv")
        ((some "/tmp/test.csv").getD (basename (pyStr (some "data/test.csv"))))).2
      = .error (.exc "Error checking object existence") ∧
    (download_file_from_s3 (.error (.clientError "403" "forbidden")) .success
        (some "bkt") (some "data/test.csv") (some "/tmp/test.csv")).2 = .ok false ∧
    Event.print "Unexpected error: Error checking object existence"
      ∈ (download_file_from_s3 (.error (.clientError "403" "forbidden")) .success
          (some "bkt") (some "data/test.csv") (some "/tmp/test.csv")).1 :=
  spec_C3_probe_error_swallowed .success "403" "forbidden" (some "bkt")
    (some "data/test.csv") (some "/tmp/test.csv") (by decide)

/-- C2: when the download step returns failure, the run terminates with an
uncaught fatal error (the never-assigned frame raises `NameError`, wrapped by
the prediction handler): `predict` is never invoked, no output is assembled,
and the upload/persist step is never attempted. -/
theorem spec_C2_download_failure_aborts (env : DriverEnv)
    (h : env.dlResult = false) :
    (mainRun env).2 = RunOutcome.fatal
        "Error during prediction: NameError: name df is not defined" ∧
    Step.predictInvoked ∉ (mainRun env).1 ∧
    Step.assembleStep ∉ (mainRun env).1 ∧
    Step.persistStep ∉ (mainRun env).1 := by
  have hr : mainRun env
      = ([Step.downloadStep false, Step.printDownloadFailed,
          Step.setTrackingUri env.MLFLOW_TRACKING_URI, Step.printTrackingUri,
          Step.printMakingPredictions],
         RunOutcome.fatal
           "Error during prediction: NameError: name df is not defined") := by
    simp [mainRun, h]
  rw [hr]
  refine ⟨rfl, ?_, ?_, ?_⟩ <;> simp

/-- Witness for C2 on a concrete failing-download environment. -/
theorem spec_C2_download_failure_aborts_witness :
    (mainRun envDlFailed).2 = RunOutcome.fatal
        "Error during prediction: NameError: name df is not defined" ∧
    Step.predictInvoked ∉ (mainRun envDlFailed).1 ∧
    Step.assembleStep ∉ (mainRun envDlFailed).1 ∧
    Step.persistStep ∉ (mainRun envDlFailed).1 :=
  spec_C2_download_failure_aborts envDlFailed rfl

/-- C8: when the `predict` invocation fails (model-reference resolution
failure included), the run terminates fatally with that error wrapped in the
"Error during prediction" context, and no later pipeline step (assembly,
printing of predictions, persist/upload) occurs. -/
theorem spec_C8_prediction_failure_fatal (env : DriverEnv) (e : String)
    (hdl : env.dlResult = true)
    (hp : predict env.loadResult env.stagedDf = .error e) :
    (mainRun env).2 = RunOutcome.fatal ("Error during prediction: " ++ e) ∧
    Step.assembleStep ∉ (mainRun env).1 ∧
    Step.printPredictions ∉ (mainRun env).1 ∧
    Step.persistStep ∉ (mainRun env).1 := by
  have hr : mainRun env
      = ([Step.downloadStep true, Step.readCsv, Step.printHead,
          Step.setTrackingUri env.MLFLOW_TRACKING_URI, Step.printTrackingUri,
          Step.printMakingPredictions, Step.predictInvoked],
         RunOutcome.fatal ("Error during prediction: " ++ e)) := by
    simp [mainRun, hdl, hp]
  rw [hr]
  refine ⟨rfl, ?_, ?_, ?_⟩ <;> simp

/-- Witness for C8 on a concrete environment whose model reference fails to
resolve. -/
theorem spec_C8_prediction_failure_fatal_witness :
    (mainRun envLoadFailed).2
      = RunOutcome.fatal ("Error during prediction: " ++ "RESOURCE_DOES_NOT_EXIST") ∧
    Step.assembleStep ∉ (mainRun envLoadFailed).1 ∧
    Step.printPredictions ∉ (mainRun envLoadFailed).1 ∧
    Step.persistStep ∉ (mainRun envLoadFailed).1 :=
  spec_C8_prediction_failure_fatal envLoadFailed "RESOURCE_DOES_NOT_EXIST" rfl rfl

/-- C9: the persist step serializes the result table to the fixed staging
path `/tmp/predictions.csv` (its first observable effect), uploads it under
the configured bucket with object key `data/predictions.csv`, returns
exactly that upload call's outcome, and never raises. -/
theorem spec_C9_persist_serialize_upload (env : OsEnv) (fs : FS)
    (uploadCall : S3CallResult) (df : List (Int × Int)) :
    List.lookup "/tmp/predictions.csv" (persist_predictions env fs uploadCall df).1
      = some (serializePreds df) ∧
    (persist_predictions env fs uploadCall df).2.1.head?
      = some (Event.writeFile "/tmp/predictions.csv" (serializePreds df)) ∧
    (persist_predictions env fs uploadCall df).2.2
      = (upload_file_to_s3 (persist_predictions env fs uploadCall df).1 uploadCall
          "/tmp/predictions.csv" env.S3_BUCKET_NAME (some "data/predictions.csv")
          env.S3_ENDPOINT_URL (env.AWS_DEFAULT_REGION.getD "us-east-1")).2 ∧
    ∃ b, (persist_predictions env fs uploadCall df).2.2 = .ok b := by
  refine ⟨?_, ?_, rfl, ?_⟩
  · show List.lookup "/tmp/predictions.csv"
        (fsWrite fs "/tmp/predictions.csv" (serializePreds df))
      = some (serializePreds df)
    simp [fsWrite, List.lookup]
  · rfl
  · exact upload_never_raises
      (fsWrite fs "/tmp/predictions.csv" (serializePreds df)) uploadCall
      "/tmp/predictions.csv" env.S3_BUCKET_NAME (some "data/predictions.csv")
      env.S3_ENDPOINT_URL (env.AWS_DEFAULT_REGION.getD "us-east-1")

/-- C10: the serialized predictions file is written in full to
`/tmp/predictions.csv` before the upload is attempted — the write is the
first event and every upload event follows it, and the upload itself runs on
the filesystem that already holds the complete serialized table — so the
staging file holds the complete result for every upload behaviour and every
environment (a missing bucket-name configuration included). -/
theorem spec_C10_staging_written_first (env : OsEnv) (fs : FS)
    (uploadCall : S3CallResult) (df : List (Int × Int)) :
    (persist_predictions env fs uploadCall df).1
      = fsWrite fs "/tmp/predictions.csv" (serializePreds df) ∧
    (persist_predictions env fs uploadCall df).2.1
      = Event.writeFile "/tmp/predictions.csv" (serializePreds df)
        :: (upload_file_to_s3 (fsWrite fs "/tmp/predictions.csv" (serializePreds df))
            uploadCall "/tmp/predictions.csv" env.S3_BUCKET_NAME
            (some "data/predictions.csv") env.S3_ENDPOINT_URL
            (env.AWS_DEFAULT_REGION.getD "us-east-1")).1 ∧
    fileExists (persist_predictions env fs uploadCall df).1 "/tmp/predictions.csv"
      = true := by
  refine ⟨rfl, rfl, ?_⟩
  show fileExists (fsWrite fs "/tmp/predictions.csv" (serializePreds df))
      "/tmp/predictions.csv" = true
  simp [fsWrite, fileExists, List.lookup]
